import Mathlib

/-!
Shallow embedding of the firebase-auth echo middleware
(src/firebase_auth.go) and verification of its specification.

The Go code is a single middleware constructor `WithConfig` plus three
token extractors.  The embedding models:
  - an HTTP request as the three token sources the code reads
    (headers, query parameters, cookies) as association lists;
  - the remote Firebase client (an external SDK, out of scope of the
    repository) as a record of two oracle functions, one per remote
    endpoint the code calls;
  - the echo context writes, remote calls and the delegation to the
    next handler as an explicit per-request outcome record;
  - construction-time `panic` as an explicit `ConstructResult.panicked`.

Go strings are sliced at byte level; the embedding works on the
character list of the string, which coincides for the ASCII data the
middleware compares.
-/

/-- The parts of an incoming HTTP request that the middleware reads:
header fields, URL query parameters and cookies, each as an
association list from name to value. -/
structure Request where
  headers : List (String × String)
  query : List (String × String)
  cookies : List (String × String)

/-- Models `c.Request().Header.Get(name)`: the value of the named
header, or the empty string when the header is absent. -/
def headerGet (c : Request) (name : String) : String :=
  ((c.headers).lookup name).getD ""

/-- Models `c.QueryParam(name)`: the value of the named query
parameter, or the empty string when it is absent. -/
def queryParam (c : Request) (name : String) : String :=
  ((c.query).lookup name).getD ""

/-- Models `c.Cookie(name)`: `some value` when the named cookie is
present, `none` when it is absent (the `http.ErrNoCookie` case). -/
def cookieValue (c : Request) (name : String) : Option String :=
  (c.cookies).lookup name

/-- Models `echo.HTTPError`: status code, public message, and the
wrapped internal error (a diagnostic string in this model). -/
structure HTTPError where
  Code : Nat
  Message : String
  Internal : Option String
deriving DecidableEq

/-- `ErrTokenMissing` from the source (line 59): HTTP 400. -/
def ErrTokenMissing : HTTPError :=
  { Code := 400, Message := "Missing or malformed Firebase AuthID TOKEN", Internal := none }

/-- `ErrTokenInvalid` from the source (line 60): HTTP 401. -/
def ErrTokenInvalid : HTTPError :=
  { Code := 401, Message := "Invalid or expired Firebase AuthID TOKEN", Internal := none }

/-- Models the SDK type `*auth.Token`, opaque to the middleware except
for the `UID` field; `claimsJSON` carries the output of
`json.Marshal` on the token, which the middleware treats as an opaque
string. -/
structure AuthToken where
  UID : String
  claimsJSON : String
deriving DecidableEq

/-- Models the SDK type `*auth.UserRecord`, opaque to the middleware;
`userJSON` carries the output of `json.Marshal` on the record. -/
structure UserRecord where
  userJSON : String
deriving DecidableEq

/-- Models `json.Marshal(tok)` (line 149); the serialized form is the
one carried inside the opaque token value. -/
def jsonMarshalToken (t : AuthToken) : String := t.claimsJSON

/-- Models `json.Marshal(user)` (line 163). -/
def jsonMarshalUser (u : UserRecord) : String := u.userJSON

/-- Models the remote Firebase Auth client: one oracle function per
remote endpoint the middleware calls.  Errors are diagnostic
strings. -/
structure AuthClient where
  VerifyIDToken : String → Except String AuthToken
  GetUser : String → Except String UserRecord

/-- `tokenFromHeader` (lines 179 to 188).  Go reads
`auth := Header.Get(header)` and succeeds with `auth[l+1:]` iff
`len(auth) > l+1 && auth[:l] == authScheme` where `l` is the scheme
length; byte slicing is modelled on the character list. -/
def tokenFromHeader (header authScheme : String) : Request → Except HTTPError String :=
  fun c =>
    if (headerGet c header).toList.length > authScheme.length + 1
        ∧ (headerGet c header).toList.take authScheme.length = authScheme.toList then
      Except.ok (String.mk ((headerGet c header).toList.drop (authScheme.length + 1)))
    else
      Except.error ErrTokenMissing

/-- `tokenFromQuery` (lines 191 to 199): empty value (absent or
present-but-empty parameter) fails with `ErrTokenMissing`. -/
def tokenFromQuery (param : String) : Request → Except HTTPError String :=
  fun c =>
    if queryParam c param = "" then
      Except.error ErrTokenMissing
    else
      Except.ok (queryParam c param)

/-- `tokenFromCookie` (lines 202 to 210): fails with
`ErrTokenMissing` only when `c.Cookie(name)` errors, i.e. when the
cookie is absent; otherwise returns the cookie value unchecked. -/
def tokenFromCookie (name : String) : Request → Except HTTPError String :=
  fun c =>
    match cookieValue c name with
    | none => Except.error ErrTokenMissing
    | some v => Except.ok v

/-- `Config` (lines 22 to 52).  The skip predicate is `Option` so
that the Go `nil` check on `Skipper` can be modelled; the credential
blob is a byte list. -/
structure Config where
  Skipper : Option (Request → Bool)
  ContextIDKey : String
  ContextUserKey : String
  TokenLookup : String
  AuthScheme : String
  CredentialJSON : List Nat

/-- `middleware.DefaultSkipper`: skips nothing. -/
def DefaultSkipper : Request → Bool := fun _ => false

/-- `echo.HeaderAuthorization`. -/
def HeaderAuthorization : String := "Authorization"

/-- `DefaultFirebaseAuthConfig` (lines 66 to 72). -/
def DefaultFirebaseAuthConfig : Config :=
  { Skipper := some DefaultSkipper
    ContextIDKey := "id-key"
    ContextUserKey := "user"
    TokenLookup := "header:" ++ HeaderAuthorization
    AuthScheme := "Bearer"
    CredentialJSON := [] }

/-- Splits a character list at every occurrence of `sep`; helper for
`stringsSplit`.  Never returns the empty list. -/
def splitCharList (sep : Char) : List Char → List (List Char)
  | [] => [[]]
  | c :: rest =>
    match splitCharList sep rest with
    | [] => [[]]
    | h :: t => if c = sep then [] :: h :: t else (c :: h) :: t

/-- Models `strings.Split(s, sep)` for a one-character separator,
which is how the source uses it (line 103). -/
def stringsSplit (s : String) (sep : Char) : List String :=
  (splitCharList sep s.toList).map (fun l => String.mk l)

/-- The defaulting block of `WithConfig` (lines 88 to 100).  Note
that the source defaults `Skipper`, `ContextUserKey`, `TokenLookup`
and `AuthScheme` but never `ContextIDKey`, although the field doc
comment on `ContextIDKey` (line 27) promises the default `id-key`. -/
def resolveConfig (config : Config) : Config :=
  { Skipper := if (config.Skipper).isNone then DefaultFirebaseAuthConfig.Skipper else config.Skipper
    ContextIDKey := config.ContextIDKey
    ContextUserKey :=
      if config.ContextUserKey = "" then DefaultFirebaseAuthConfig.ContextUserKey
      else config.ContextUserKey
    TokenLookup :=
      if config.TokenLookup = "" then DefaultFirebaseAuthConfig.TokenLookup
      else config.TokenLookup
    AuthScheme :=
      if config.AuthScheme = "" then DefaultFirebaseAuthConfig.AuthScheme
      else config.AuthScheme
    CredentialJSON := config.CredentialJSON }

/-- A constructed middleware instance: the resolved configuration,
the selected token extractor, and the remote client. -/
structure Middleware where
  config : Config
  extractor : Request → Except HTTPError String
  client : AuthClient

/-- Result of running `WithConfig`: either a middleware instance or a
process abort (`panic`). -/
inductive ConstructResult where
  | panicked (msg : String)
  | ok (mw : Middleware)

/-- `WithConfig` construction (lines 87 to 126), parameterized by
`initClient`, the external `firebase.NewApp` plus `app.Auth` pair
that turns the credential bytes into a client or an error.
`parts := strings.Split(TokenLookup, ":")` is indexed as `parts[1]`
before any tag comparison, so a lookup string that splits into fewer
than two parts panics with an index-out-of-range runtime error.  The
extractor switch on `parts[0]` falls back to header extraction for
every tag other than `query` and `cookie`.  Empty credentials panic
(line 113), and a client construction error panics (lines 120, 125). -/
def WithConfig (initClient : List Nat → Except String AuthClient) (config0 : Config) :
    ConstructResult :=
  match stringsSplit (resolveConfig config0).TokenLookup ':' with
  | p0 :: p1 :: _ =>
    if (resolveConfig config0).CredentialJSON.length = 0 then
      ConstructResult.panicked "echo: FirebaseAuth middleware requires CredentialJSON"
    else
      match initClient (resolveConfig config0).CredentialJSON with
      | Except.error e => ConstructResult.panicked e
      | Except.ok client =>
        ConstructResult.ok
          { config := resolveConfig config0
            extractor :=
              if p0 = "query" then tokenFromQuery p1
              else if p0 = "cookie" then tokenFromCookie p1
              else tokenFromHeader p1 (resolveConfig config0).AuthScheme
            client := client }
  | _ => ConstructResult.panicked "index out of range"

/-- `FirebaseAuth` (lines 80 to 83): `WithConfig` on the default
configuration. -/
def FirebaseAuth (initClient : List Nat → Except String AuthClient) : ConstructResult :=
  WithConfig initClient DefaultFirebaseAuthConfig

/-- One remote call issued by the middleware, with its argument. -/
inductive RemoteCall where
  | getUser (arg : String)
  | verifyIDToken (arg : String)
deriving DecidableEq

/-- Observable outcome of one request: the remote calls issued in
order, the context entries written in order, how many times the next
handler was invoked, and the error response if any (`none` means the
request was delegated to the next handler). -/
structure RequestOutcome where
  calls : List RemoteCall
  ctxSets : List (String × String)
  nextCalls : Nat
  response : Option HTTPError
deriving DecidableEq

/-- The per-request handler returned by `WithConfig` (lines 129 to
174).  Control flow mirrors the source: skip check; extraction
(returning the extraction error directly); the discarded
`client.GetUser(ctx, auth)` call of line 139; `VerifyIDToken`, whose
failure maps to a 401 with the underlying error as `Internal`; the
two context writes of lines 150 and 151; the optional profile fetch
when the `X-GetUser` header equals `"true"`, whose failure maps to
the same 401 after the first two context writes already happened; and
delegation to the next handler. -/
def handleRequest (skipper : Request → Bool) (extractor : Request → Except HTTPError String)
    (client : AuthClient) (contextIDKey contextUserKey : String) (c : Request) :
    RequestOutcome :=
  if skipper c then
    { calls := [], ctxSets := [], nextCalls := 1, response := none }
  else
    match extractor c with
    | Except.error e => { calls := [], ctxSets := [], nextCalls := 0, response := some e }
    | Except.ok auth =>
      match client.VerifyIDToken auth with
      | Except.error err =>
        { calls := [RemoteCall.getUser auth, RemoteCall.verifyIDToken auth]
          ctxSets := []
          nextCalls := 0
          response := some { Code := ErrTokenInvalid.Code, Message := ErrTokenInvalid.Message,
                             Internal := some err } }
      | Except.ok tok =>
        if headerGet c "X-GetUser" = "true" then
          match client.GetUser tok.UID with
          | Except.error err =>
            { calls := [RemoteCall.getUser auth, RemoteCall.verifyIDToken auth,
                        RemoteCall.getUser tok.UID]
              ctxSets := [(contextIDKey, jsonMarshalToken tok), ("auth-provider", "firebase")]
              nextCalls := 0
              response := some { Code := ErrTokenInvalid.Code, Message := ErrTokenInvalid.Message,
                                 Internal := some err } }
          | Except.ok user =>
            { calls := [RemoteCall.getUser auth, RemoteCall.verifyIDToken auth,
                        RemoteCall.getUser tok.UID]
              ctxSets := [(contextIDKey, jsonMarshalToken tok), ("auth-provider", "firebase"),
                          (contextUserKey, jsonMarshalUser user)]
              nextCalls := 1
              response := none }
        else
          { calls := [RemoteCall.getUser auth, RemoteCall.verifyIDToken auth]
            ctxSets := [(contextIDKey, jsonMarshalToken tok), ("auth-provider", "firebase")]
            nextCalls := 1
            response := none }

/-- Runs a constructed middleware instance on a request. -/
def serve (mw : Middleware) (c : Request) : RequestOutcome :=
  handleRequest (fun r => ((mw.config.Skipper).getD DefaultSkipper) r)
    mw.extractor mw.client mw.config.ContextIDKey mw.config.ContextUserKey c

/-- Runs a construction result on a request: `none` when construction
panicked, so no request is ever served by a failed construction. -/
def serveCR : ConstructResult → Request → Option RequestOutcome
  | ConstructResult.panicked _, _ => none
  | ConstructResult.ok mw, c => some (serve mw c)

/-- The four string fields of the resolved configuration inside a
construction result, in source order: `ContextIDKey`,
`ContextUserKey`, `TokenLookup`, `AuthScheme`. -/
def resolvedKeys : ConstructResult → Option (String × String × String × String)
  | ConstructResult.panicked _ => none
  | ConstructResult.ok mw =>
    some (mw.config.ContextIDKey, mw.config.ContextUserKey,
          mw.config.TokenLookup, mw.config.AuthScheme)

/-- Concrete verified token used by the test fixtures. -/
def tokOne : AuthToken := { UID := "uid-1", claimsJSON := "claims-1" }

/-- Concrete user record used by the test fixtures. -/
def userOne : UserRecord := { userJSON := "profile-1" }

/-- Remote client for which both endpoints succeed. -/
def clientOK : AuthClient :=
  { VerifyIDToken := fun _ => Except.ok tokOne
    GetUser := fun _ => Except.ok userOne }

/-- Remote client for which token verification fails. -/
def clientVerifyFail : AuthClient :=
  { VerifyIDToken := fun _ => Except.error "verify-failed"
    GetUser := fun _ => Except.ok userOne }

/-- Remote client for which verification succeeds but the profile
fetch fails. -/
def clientUserFail : AuthClient :=
  { VerifyIDToken := fun _ => Except.ok tokOne
    GetUser := fun _ => Except.error "user-fetch-failed" }

/-- Client initialization that always succeeds with the given client. -/
def initOK (cl : AuthClient) : List Nat → Except String AuthClient :=
  fun _ => Except.ok cl

/-- Request with header value `Bearer abc123` and no other data. -/
def reqBearer : Request :=
  { headers := [("Authorization", "Bearer abc123")], query := [], cookies := [] }

/-- Request with header value `Bearerabc123`: scheme present, no
separator character. -/
def reqNoSep : Request :=
  { headers := [("Authorization", "Bearerabc123")], query := [], cookies := [] }

/-- Request with header value `Basic abc123`: wrong scheme. -/
def reqBasic : Request :=
  { headers := [("Authorization", "Basic abc123")], query := [], cookies := [] }

/-- Request with a bearer token and the detail-request header set. -/
def reqDetail : Request :=
  { headers := [("Authorization", "Bearer abc123"), ("X-GetUser", "true")],
    query := [], cookies := [] }

/-- Request carrying the cookie `tok` with an empty value. -/
def reqCookieEmpty : Request :=
  { headers := [], query := [], cookies := [("tok", "")] }

/-- Configuration with every optional field unset and non-empty
credentials. -/
def cfgNoIDKey : Config :=
  { Skipper := none, ContextIDKey := "", ContextUserKey := "",
    TokenLookup := "", AuthScheme := "", CredentialJSON := [1] }

/-- Configuration whose token lookup string has no colon. -/
def cfgNoColon : Config :=
  { Skipper := none, ContextIDKey := "", ContextUserKey := "",
    TokenLookup := "Authorization", AuthScheme := "", CredentialJSON := [1] }

/-- Configuration with an unrecognized lookup source tag. -/
def cfgCustomTag : Config :=
  { Skipper := none, ContextIDKey := "", ContextUserKey := "",
    TokenLookup := "custom:Tok", AuthScheme := "", CredentialJSON := [1] }

/-- Configuration with an empty credential blob. -/
def cfgEmptyCreds : Config :=
  { Skipper := none, ContextIDKey := "id-key", ContextUserKey := "user",
    TokenLookup := "header:Authorization", AuthScheme := "Bearer", CredentialJSON := [] }

/-- C1 counterexample: with scheme `Bearer`, the header value
`Bearerabc123` does not fail with the Missing Token error as the
claim states; extraction succeeds and returns `bc123`, because the
code strips the byte after the scheme without checking that it is a
separator. -/
theorem C1_no_separator_succeeds :
    tokenFromHeader "Authorization" "Bearer" reqNoSep = Except.ok "bc123" := rfl

/-- C1 (amended): with scheme `Bearer`, header value `Bearer abc123`
yields token `abc123`; header value `Bearerabc123` yields token
`bc123` (the character after the scheme is stripped without being
checked); header value `Basic abc123` fails with the Missing Token
error; in general, extraction succeeds exactly when the header value
is strictly longer than the scheme length plus one and starts with
the scheme, and the token is the value with the scheme and the
following character stripped. -/
theorem C1_header_extraction :
    tokenFromHeader "Authorization" "Bearer" reqBearer = Except.ok "abc123"
    ∧ tokenFromHeader "Authorization" "Bearer" reqNoSep = Except.ok "bc123"
    ∧ tokenFromHeader "Authorization" "Bearer" reqBasic = Except.error ErrTokenMissing
    ∧ ∀ (header authScheme t : String) (c : Request),
        tokenFromHeader header authScheme c = Except.ok t ↔
          ((headerGet c header).toList.length > authScheme.length + 1
           ∧ authScheme.toList <+: (headerGet c header).toList
           ∧ t = String.mk ((headerGet c header).toList.drop (authScheme.length + 1))) := by
  refine ⟨rfl, rfl, rfl, ?_⟩
  intro header authScheme t c
  have hlen : authScheme.toList.length = authScheme.length := rfl
  unfold tokenFromHeader
  split_ifs with h
  · obtain ⟨h1, h2⟩ := h
    constructor
    · intro he
      injection he with ht
      refine ⟨h1, ?_, ht.symm⟩
      rw [← h2]
      exact List.take_prefix _ _
    · rintro ⟨-, -, ht⟩
      rw [ht]
  · constructor
    · intro he
      exact he.elim
    · rintro ⟨h1, h2, -⟩
      have h2' : (headerGet c header).toList.take authScheme.length = authScheme.toList := by
        rw [← hlen]
        exact (List.prefix_iff_eq_take.mp h2).symm
      exact absurd ⟨h1, h2'⟩ h

/-- C2: at the failing input (a non-skipped request with header value
`Bearer abc123` and no detail-request header), the middleware issues
a remote GetUser call with the raw token string before the verify
call, although the claim says no remote call other than the single
verify call is made for such a request. -/
theorem C2_stray_remote_call :
    (handleRequest DefaultSkipper (tokenFromHeader "Authorization" "Bearer") clientOK
        "id-key" "user" reqBearer).calls
      = [RemoteCall.getUser "abc123", RemoteCall.verifyIDToken "abc123"] := rfl

/-- C3 counterexample: with the detail-request header set and a
remote profile fetch that fails, the request fails with 401 but the
identity-claims and provider-tag context keys have already been
written, contradicting the claim that no context key has been set. -/
theorem C3_writes_precede_failure :
    (handleRequest DefaultSkipper (tokenFromHeader "Authorization" "Bearer") clientUserFail
        "id-key" "user" reqDetail).response
      = some { Code := 401, Message := "Invalid or expired Firebase AuthID TOKEN",
               Internal := some "user-fetch-failed" }
    ∧ (handleRequest DefaultSkipper (tokenFromHeader "Authorization" "Bearer") clientUserFail
        "id-key" "user" reqDetail).ctxSets
      = [("id-key", "claims-1"), ("auth-provider", "firebase")] := ⟨rfl, rfl⟩

/-- C3 (amended): when the detail-request header is `true` and the
remote profile fetch fails, the request fails with 401 and the next
handler is not invoked, but the identity-claims and provider-tag
context keys have already been set; only the user-profile key is
unset. -/
theorem C3_profile_failure_partial_context
    (sk : Request → Bool) (ext : Request → Except HTTPError String) (cl : AuthClient)
    (idk uk : String) (c : Request) (auth : String) (tok : AuthToken) (err : String)
    (h1 : sk c = false) (h2 : ext c = Except.ok auth)
    (h3 : cl.VerifyIDToken auth = Except.ok tok)
    (h4 : headerGet c "X-GetUser" = "true")
    (h5 : cl.GetUser tok.UID = Except.error err) :
    (handleRequest sk ext cl idk uk c).response
      = some { Code := 401, Message := "Invalid or expired Firebase AuthID TOKEN",
               Internal := some err }
    ∧ (handleRequest sk ext cl idk uk c).ctxSets
      = [(idk, jsonMarshalToken tok), ("auth-provider", "firebase")]
    ∧ (handleRequest sk ext cl idk uk c).nextCalls = 0
    ∧ ∀ v, uk ≠ idk → uk ≠ "auth-provider" →
        (uk, v) ∉ (handleRequest sk ext cl idk uk c).ctxSets := by
  have hmain : handleRequest sk ext cl idk uk c =
      { calls := [RemoteCall.getUser auth, RemoteCall.verifyIDToken auth,
                  RemoteCall.getUser tok.UID]
        ctxSets := [(idk, jsonMarshalToken tok), ("auth-provider", "firebase")]
        nextCalls := 0
        response := some { Code := 401, Message := "Invalid or expired Firebase AuthID TOKEN",
                           Internal := some err } } := by
    simp [handleRequest, h1, h2, h3, h4, h5, ErrTokenInvalid]
  refine ⟨by rw [hmain], by rw [hmain], by rw [hmain], ?_⟩
  intro v hu1 hu2 hv
  rw [hmain] at hv
  simp only [List.mem_cons, List.not_mem_nil, or_false] at hv
  rcases hv with hv | hv
  · exact hu1 (congrArg Prod.fst hv)
  · exact hu2 (congrArg Prod.fst hv)

/-- C3 witness: the amended theorem evaluated at a concrete request
with the detail header set and a failing profile fetch. -/
theorem C3_profile_failure_witness :
    (handleRequest DefaultSkipper (tokenFromHeader "Authorization" "Bearer") clientUserFail
        "id-key" "user" reqDetail).response
      = some { Code := 401, Message := "Invalid or expired Firebase AuthID TOKEN",
               Internal := some "user-fetch-failed" }
    ∧ (handleRequest DefaultSkipper (tokenFromHeader "Authorization" "Bearer") clientUserFail
        "id-key" "user" reqDetail).nextCalls = 0 :=
  ⟨(C3_profile_failure_partial_context DefaultSkipper
      (tokenFromHeader "Authorization" "Bearer") clientUserFail "id-key" "user" reqDetail
      "abc123" tokOne "user-fetch-failed" rfl rfl rfl rfl rfl).1,
   (C3_profile_failure_partial_context DefaultSkipper
      (tokenFromHeader "Authorization" "Bearer") clientUserFail "id-key" "user" reqDetail
      "abc123" tokOne "user-fetch-failed" rfl rfl rfl rfl rfl).2.2.1⟩

/-- C4: for every non-skipped request whose token verifies and that
carries no detail-request header, the middleware writes exactly the
identity-claims entry (the serialized claim set) and the provider-tag
entry `firebase`, leaves the user-profile key unset, delegates to the
next handler exactly once, and produces no error response. -/
theorem C4_verified_no_detail
    (sk : Request → Bool) (ext : Request → Except HTTPError String) (cl : AuthClient)
    (idk uk : String) (c : Request) (auth : String) (tok : AuthToken)
    (h1 : sk c = false) (h2 : ext c = Except.ok auth)
    (h3 : cl.VerifyIDToken auth = Except.ok tok)
    (h4 : (c.headers).lookup "X-GetUser" = none) :
    (handleRequest sk ext cl idk uk c).ctxSets
      = [(idk, jsonMarshalToken tok), ("auth-provider", "firebase")]
    ∧ (handleRequest sk ext cl idk uk c).nextCalls = 1
    ∧ (handleRequest sk ext cl idk uk c).response = none
    ∧ ∀ v, uk ≠ idk → uk ≠ "auth-provider" →
        (uk, v) ∉ (handleRequest sk ext cl idk uk c).ctxSets := by
  have hx : headerGet c "X-GetUser" ≠ "true" := by
    rw [show headerGet c "X-GetUser" = "" from by simp [headerGet, h4]]
    decide
  have hmain : handleRequest sk ext cl idk uk c =
      { calls := [RemoteCall.getUser auth, RemoteCall.verifyIDToken auth]
        ctxSets := [(idk, jsonMarshalToken tok), ("auth-provider", "firebase")]
        nextCalls := 1
        response := none } := by
    simp [handleRequest, h1, h2, h3, hx]
  refine ⟨by rw [hmain], by rw [hmain], by rw [hmain], ?_⟩
  intro v hu1 hu2 hv
  rw [hmain] at hv
  simp only [List.mem_cons, List.not_mem_nil, or_false] at hv
  rcases hv with hv | hv
  · exact hu1 (congrArg Prod.fst hv)
  · exact hu2 (congrArg Prod.fst hv)

/-- C4 witness: theorem evaluated at a concrete verified request with
no detail-request header. -/
theorem C4_verified_no_detail_witness :
    (handleRequest DefaultSkipper (tokenFromHeader "Authorization" "Bearer") clientOK
        "id-key" "user" reqBearer).ctxSets
      = [("id-key", jsonMarshalToken tokOne), ("auth-provider", "firebase")]
    ∧ (handleRequest DefaultSkipper (tokenFromHeader "Authorization" "Bearer") clientOK
        "id-key" "user" reqBearer).nextCalls = 1 :=
  ⟨(C4_verified_no_detail DefaultSkipper (tokenFromHeader "Authorization" "Bearer") clientOK
      "id-key" "user" reqBearer "abc123" tokOne rfl rfl rfl rfl).1,
   (C4_verified_no_detail DefaultSkipper (tokenFromHeader "Authorization" "Bearer") clientOK
      "id-key" "user" reqBearer "abc123" tokOne rfl rfl rfl rfl).2.1⟩

/-- C5: for every non-skipped request with an extracted token, if the
remote verifier rejects the token, or if the token verifies, the
detail-request header equals `true` and the remote profile fetch
fails, the middleware produces exactly one 401 response carrying the
fixed public message with the underlying error only as internal
diagnostic, and the next handler is never invoked. -/
theorem C5_invalid_token_401
    (sk : Request → Bool) (ext : Request → Except HTTPError String) (cl : AuthClient)
    (idk uk : String) (c : Request) (auth : String)
    (h1 : sk c = false) (h2 : ext c = Except.ok auth) :
    (∀ err, cl.VerifyIDToken auth = Except.error err →
        (handleRequest sk ext cl idk uk c).response
          = some { Code := 401, Message := "Invalid or expired Firebase AuthID TOKEN",
                   Internal := some err }
        ∧ (handleRequest sk ext cl idk uk c).nextCalls = 0)
    ∧ (∀ tok err, cl.VerifyIDToken auth = Except.ok tok →
        headerGet c "X-GetUser" = "true" → cl.GetUser tok.UID = Except.error err →
        (handleRequest sk ext cl idk uk c).response
          = some { Code := 401, Message := "Invalid or expired Firebase AuthID TOKEN",
                   Internal := some err }
        ∧ (handleRequest sk ext cl idk uk c).nextCalls = 0) := by
  constructor
  · intro err hv
    constructor <;> simp [handleRequest, h1, h2, hv, ErrTokenInvalid]
  · intro tok err hv hx hg
    constructor <;> simp [handleRequest, h1, h2, hv, hx, hg, ErrTokenInvalid]

/-- C5 witness: theorem evaluated at a concrete request whose token
the remote verifier rejects. -/
theorem C5_invalid_token_witness :
    (handleRequest DefaultSkipper (tokenFromHeader "Authorization" "Bearer") clientVerifyFail
        "id-key" "user" reqBearer).response
      = some { Code := 401, Message := "Invalid or expired Firebase AuthID TOKEN",
               Internal := some "verify-failed" }
    ∧ (handleRequest DefaultSkipper (tokenFromHeader "Authorization" "Bearer") clientVerifyFail
        "id-key" "user" reqBearer).nextCalls = 0 :=
  (C5_invalid_token_401 DefaultSkipper (tokenFromHeader "Authorization" "Bearer")
    clientVerifyFail "id-key" "user" reqBearer "abc123" rfl rfl).1 "verify-failed" rfl

/-- C6: at the failing input, a configuration with every optional
field empty: construction defaults the user context key, the token
lookup and the auth scheme as documented, but never defaults the
identity context key, so the verified claims are stored under the
empty-string key instead of the documented default `id-key`. -/
theorem C6_idkey_never_defaulted :
    resolvedKeys (WithConfig (initOK clientOK) cfgNoIDKey)
      = some ("", "user", "header:Authorization", "Bearer")
    ∧ Option.map RequestOutcome.ctxSets
        (serveCR (WithConfig (initOK clientOK) cfgNoIDKey) reqBearer)
      = some [("", "claims-1"), ("auth-provider", "firebase")] := ⟨rfl, rfl⟩

/-- C7: for every request for which the skip predicate returns true,
the middleware delegates to the next handler exactly once with no
context writes and no remote calls. -/
theorem C7_skip_no_side_effects
    (sk : Request → Bool) (ext : Request → Except HTTPError String) (cl : AuthClient)
    (idk uk : String) (c : Request) (h : sk c = true) :
    handleRequest sk ext cl idk uk c
      = { calls := [], ctxSets := [], nextCalls := 1, response := none } := by
  simp [handleRequest, h]

/-- C7 witness: theorem evaluated with a skip predicate that is
always true. -/
theorem C7_skip_witness :
    handleRequest (fun _ => true) (tokenFromHeader "Authorization" "Bearer") clientOK
        "id-key" "user" reqBearer
      = { calls := [], ctxSets := [], nextCalls := 1, response := none } :=
  C7_skip_no_side_effects (fun _ => true) (tokenFromHeader "Authorization" "Bearer") clientOK
    "id-key" "user" reqBearer rfl

/-- C8 counterexample: the non-empty locator `Authorization` has no
colon, so its source tag is not `query` or `cookie`, yet construction
does not succeed: indexing the second split part aborts with an
index-out-of-range panic, although credentials are valid. -/
theorem C8_no_colon_panics :
    WithConfig (initOK clientOK) cfgNoColon
      = ConstructResult.panicked "index out of range" := rfl

/-- C8 (amended): for every token-lookup locator that splits on the
colon into at least two parts and whose first part is not exactly
`query` or `cookie`, construction succeeds given valid credentials
and silently selects header extraction with the second part as the
header name; a locator with fewer than two parts instead aborts
construction with an index-out-of-range panic. -/
theorem C8_unknown_tag_header_fallback
    (initClient : List Nat → Except String AuthClient) (config : Config)
    (p0 p1 : String) (rest : List String) (cl : AuthClient)
    (h1 : stringsSplit config.TokenLookup ':' = p0 :: p1 :: rest)
    (h2 : p0 ≠ "query") (h3 : p0 ≠ "cookie")
    (h4 : config.CredentialJSON ≠ [])
    (h5 : initClient config.CredentialJSON = Except.ok cl) :
    ∃ mw, WithConfig initClient config = ConstructResult.ok mw
      ∧ mw.extractor = tokenFromHeader p1 (resolveConfig config).AuthScheme
      ∧ mw.client = cl := by
  have hne : config.TokenLookup ≠ "" := by
    intro he
    rw [he] at h1
    simp [stringsSplit, splitCharList] at h1
  have hTL : (resolveConfig config).TokenLookup = config.TokenLookup := by
    simp [resolveConfig, hne]
  have hCJ : (resolveConfig config).CredentialJSON = config.CredentialJSON := rfl
  have hlen : ¬(resolveConfig config).CredentialJSON.length = 0 := by
    rw [hCJ]
    simpa [List.length_eq_zero] using h4
  unfold WithConfig
  rw [hTL, h1]
  dsimp only
  rw [if_neg hlen, hCJ, h5]
  dsimp only
  rw [if_neg h2, if_neg h3]
  exact ⟨_, rfl, rfl, rfl⟩

/-- C8 witness: the amended theorem evaluated at the locator
`custom:Tok`, an unrecognized source tag with a colon. -/
theorem C8_unknown_tag_witness :
    ∃ mw, WithConfig (initOK clientOK) cfgCustomTag = ConstructResult.ok mw
      ∧ mw.extractor = tokenFromHeader "Tok" (resolveConfig cfgCustomTag).AuthScheme
      ∧ mw.client = clientOK :=
  C8_unknown_tag_header_fallback (initOK clientOK) cfgCustomTag "custom" "Tok" [] clientOK
    rfl (by decide) (by decide) (by decide) rfl

/-- C9: constructing the middleware with an empty credential blob
always panics, for every configuration and every client initializer,
and never yields a middleware instance, so the failure can never
surface as a per-request error. -/
theorem C9_empty_credentials_abort
    (initClient : List Nat → Except String AuthClient) (config : Config)
    (h : config.CredentialJSON = []) :
    (∃ msg, WithConfig initClient config = ConstructResult.panicked msg)
    ∧ ∀ mw, WithConfig initClient config ≠ ConstructResult.ok mw := by
  have h0 : (resolveConfig config).CredentialJSON.length = 0 := by
    simp [resolveConfig, h]
  have key : ∃ msg, WithConfig initClient config = ConstructResult.panicked msg := by
    unfold WithConfig
    split
    · rw [if_pos h0]
      exact ⟨_, rfl⟩
    · exact ⟨_, rfl⟩
  refine ⟨key, fun mw hmw => ?_⟩
  obtain ⟨msg, hmsg⟩ := key
  rw [hmw] at hmsg
  exact ConstructResult.noConfusion hmsg

/-- C9 witness: theorem evaluated at a concrete configuration with an
empty credential blob. -/
theorem C9_empty_credentials_witness :
    (∃ msg, WithConfig (initOK clientOK) cfgEmptyCreds = ConstructResult.panicked msg)
    ∧ ∀ mw, WithConfig (initOK clientOK) cfgEmptyCreds ≠ ConstructResult.ok mw :=
  C9_empty_credentials_abort (initOK clientOK) cfgEmptyCreds rfl

/-- C10: cookie extraction fails with the Missing Token error only
when the named cookie is absent; a present cookie with an empty value
extracts successfully as the empty string, which the middleware then
sends to the remote verification call; by contrast, a present query
parameter with an empty value fails with the Missing Token error. -/
theorem C10_cookie_empty_value
    (name : String) (sk : Request → Bool) (cl : AuthClient)
    (idk uk : String) (c : Request)
    (h1 : cookieValue c name = some "") (h2 : sk c = false) :
    tokenFromCookie name c = Except.ok ""
    ∧ RemoteCall.verifyIDToken ""
        ∈ (handleRequest sk (tokenFromCookie name) cl idk uk c).calls
    ∧ (∀ (c2 : Request) (e : HTTPError),
        tokenFromCookie name c2 = Except.error e →
          e = ErrTokenMissing ∧ cookieValue c2 name = none)
    ∧ (∀ (c3 : Request) (param : String),
        (c3.query).lookup param = some "" →
          tokenFromQuery param c3 = Except.error ErrTokenMissing) := by
  have hok : tokenFromCookie name c = Except.ok "" := by
    simp [tokenFromCookie, h1]
  refine ⟨hok, ?_, ?_, ?_⟩
  · cases hv : cl.VerifyIDToken "" with
    | error err => simp [handleRequest, h2, hok, hv]
    | ok tok =>
      by_cases hx : headerGet c "X-GetUser" = "true"
      · cases hg : cl.GetUser tok.UID with
        | error err => simp [handleRequest, h2, hok, hv, hx, hg]
        | ok u => simp [handleRequest, h2, hok, hv, hx, hg]
      · simp [handleRequest, h2, hok, hv, hx]
  · intro c2 e he
    unfold tokenFromCookie at he
    cases hcv : cookieValue c2 name with
    | none =>
      rw [hcv] at he
      injection he with h'
      exact ⟨h'.symm, rfl⟩
    | some v =>
      rw [hcv] at he
      exact Except.noConfusion he
  · intro c3 param hq
    have hqp : queryParam c3 param = "" := by simp [queryParam, hq]
    simp [tokenFromQuery, hqp]

/-- C10 witness: the cookie `tok` present with an empty value
extracts as the empty string and the empty string reaches the remote
verify call. -/
theorem C10_cookie_empty_witness :
    tokenFromCookie "tok" reqCookieEmpty = Except.ok ""
    ∧ RemoteCall.verifyIDToken ""
        ∈ (handleRequest DefaultSkipper (tokenFromCookie "tok") clientOK
            "id-key" "user" reqCookieEmpty).calls :=
  ⟨(C10_cookie_empty_value "tok" DefaultSkipper clientOK "id-key" "user" reqCookieEmpty
      rfl rfl).1,
   (C10_cookie_empty_value "tok" DefaultSkipper clientOK "id-key" "user" reqCookieEmpty
      rfl rfl).2.1⟩
